import Mathlib

/-!
Verification of the weldingengineer repository's client-side behaviors:
the search/filter widget (src/js/app.js), the clipboard copy widget
(src/js/codes.js), and the HTTPS redirect rule set (src/.htaccess.txt).

Strings are modelled as `List Char`.  JavaScript string operations used by
the code (`trim`, `toLowerCase`, `includes`) are embedded as executable
functions below.
-/

namespace WeldingEngineer

/-- Whitespace recognised by JavaScript `String.prototype.trim`:
the ECMAScript WhiteSpace set (TAB, VT, FF, SP, NBSP, ZWNBSP and the
Unicode Zs category) together with the LineTerminator set
(LF, CR, LS, PS). -/
def isJsWhitespace (c : Char) : Bool :=
  let n := c.toNat
  n == 0x9 || n == 0xA || n == 0xB || n == 0xC || n == 0xD || n == 0x20 ||
  n == 0xA0 || n == 0x1680 || (0x2000 ≤ n && n ≤ 0x200A) ||
  n == 0x2028 || n == 0x2029 || n == 0x202F || n == 0x205F ||
  n == 0x3000 || n == 0xFEFF

/-- Model of JavaScript `String.prototype.trim`: remove leading and
trailing whitespace. -/
def trimList (s : List Char) : List Char :=
  ((s.dropWhile isJsWhitespace).reverse.dropWhile isJsWhitespace).reverse

/-- Model of JavaScript `String.prototype.toLowerCase` on one character.
Restricted to the ASCII mapping; no claim in this development depends on
non-ASCII case folding. -/
def lowerChar (c : Char) : Char :=
  if 0x41 ≤ c.toNat && c.toNat ≤ 0x5A then Char.ofNat (c.toNat + 32) else c

/-- Model of JavaScript `String.prototype.toLowerCase` on a whole string. -/
def lowerStr (s : List Char) : List Char :=
  s.map lowerChar

/-- Does `hay` start with `needle`? Helper for `includesList`. -/
def listStartsWith : List Char → List Char → Bool
  | _, [] => true
  | [], _ :: _ => false
  | a :: as, b :: bs => (a == b) && listStartsWith as bs

/-- Model of JavaScript `String.prototype.includes`:
`includesList needle hay` is true when `needle` occurs as a contiguous
substring of `hay` (the empty needle occurs in every string). -/
def includesList (needle : List Char) : List Char → Bool
  | [] => needle.isEmpty
  | a :: t => listStartsWith (a :: t) needle || includesList needle t

/-- One record of the static catalog fetched from js/pages.json
(spec section 3, "PageEntry"): the two fields the filter reads. -/
structure PageEntry where
  title : List Char
  description : List Char
deriving DecidableEq

/-- The per-item predicate of the `filteredResults` computed property in
src/js/app.js lines 26-29:
`item.title.toLowerCase().includes(this.query.toLowerCase()) ||
 item.description.toLowerCase().includes(this.query.toLowerCase())`. -/
def matchItem (query : List Char) (item : PageEntry) : Bool :=
  includesList (lowerStr query) (lowerStr item.title) ||
  includesList (lowerStr query) (lowerStr item.description)

/-- The `filteredResults` computed property of src/js/app.js lines 22-30:
if the trimmed query is empty return the empty list, otherwise filter the
catalog by `matchItem`. -/
def filteredResults (data : List PageEntry) (query : List Char) :
    List PageEntry :=
  if trimList query = [] then [] else data.filter (matchItem query)

/-- Observable effects of the widgets: diagnostic log entries
(console.error), informational log entries (console.log), blocking user
notifications (alert), and the settling of the asynchronous clipboard
write. -/
inductive UiEvent where
  | logged (msg : List Char)
  | infoLogged (msg : List Char)
  | alertShown (msg : List Char)
  | clipSettled (success : Bool)
deriving DecidableEq

/-- The user-facing notifications (alert calls) occurring in a trace. -/
def alertsOf (t : List UiEvent) : List (List Char) :=
  t.filterMap fun e =>
    match e with
    | UiEvent.alertShown m => some m
    | _ => none

/-- The diagnostic log entries (console.error calls) occurring in a
trace. -/
def logsOf (t : List UiEvent) : List (List Char) :=
  t.filterMap fun e =>
    match e with
    | UiEvent.logged m => some m
    | _ => none

/-- State of the search widget Vue instance. -/
structure Widget where
  query : List Char
  data : List PageEntry
deriving DecidableEq

/-- The initial widget state of src/js/app.js lines 3-6:
`query: ''` and `data: []`. -/
def initWidget : Widget :=
  ⟨[], []⟩

/-- The settled fetch of js/pages.json as the created() hook sees it:
the response's ok flag and statusText, and the outcome of parsing its
body as JSON (a parse-error message, or the array of entries). -/
structure Response where
  ok : Bool
  statusText : List Char
  body : Except (List Char) (List PageEntry)

/-- Message of the error thrown on a non-ok response in src/js/app.js
line 11 (the statusText is appended to it). -/
def notOkMsg : List Char :=
  "Network response was not ok ".toList

/-- First argument of the console.error call in src/js/app.js line 19. -/
def loadErrPre : List Char :=
  "Error loading pages: ".toList

/-- First argument of the console.log call in src/js/app.js line 16. -/
def loadedMsg : List Char :=
  "Data loaded successfully:".toList

/-- The created() lifecycle hook of src/js/app.js lines 7-20, applied to
a settled fetch: a non-ok response throws an Error carrying the
statusText, which the catch handler logs, leaving the widget unchanged;
a body that fails to parse as JSON rejects and is logged the same way;
a successful parse logs an informational message and stores the parsed
entries in `data`.  No alert is ever shown on this path. -/
def created (w : Widget) (r : Response) : Widget × List UiEvent :=
  if r.ok = false then
    (w, [UiEvent.logged (loadErrPre ++ notOkMsg ++ r.statusText)])
  else
    match r.body with
    | Except.error e => (w, [UiEvent.logged (loadErrPre ++ e)])
    | Except.ok entries => ({ w with data := entries }, [UiEvent.infoLogged loadedMsg])

/-- The success alert text of src/js/codes.js line 12. -/
def successMsg : List Char :=
  "Le code a été copié dans le presse-papiers !".toList

/-- The manual-copy alert text of src/js/codes.js line 16. -/
def manualMsg : List Char :=
  "Impossible de copier le code. Copiez-le manuellement.".toList

/-- First argument of the console.error call in src/js/codes.js
line 15. -/
def copyErrPre : List Char :=
  "Erreur lors de la copie : ".toList

/-- Outcome of the asynchronous clipboard write
(navigator.clipboard.writeText). -/
inductive ClipOutcome where
  | resolved
  | rejected (err : List Char)

/-- Event trace of the copy-button click handler of src/js/codes.js
lines 10-17.  The promise returned by the clipboard write settles first;
the then/catch handlers run after that settlement: on resolution one
success alert, on rejection one console.error log followed by one
manual-copy alert. -/
def copyClickTrace : ClipOutcome → List UiEvent
  | ClipOutcome.resolved =>
      [UiEvent.clipSettled true, UiEvent.alertShown successMsg]
  | ClipOutcome.rejected e =>
      [UiEvent.clipSettled false, UiEvent.logged (copyErrPre ++ e),
       UiEvent.alertShown manualMsg]

/-- An incoming HTTP request as seen by the rewrite rules of
src/.htaccess.txt: whether the transport is encrypted (%\x7bHTTPS\x7d),
the Host header (%\x7bHTTP_HOST\x7d), the path (%\x7bREQUEST_URI\x7d,
which in Apache excludes the query string), and the query string. -/
structure Request where
  https : Bool
  host : List Char
  path : List Char
  queryStr : List Char

/-- Answer produced by the rewrite rule set. -/
inductive HtResponse where
  | redirect (status : Nat) (location : List Char)
  | passThrough
deriving DecidableEq

/-- Does the string contain a literal question mark? -/
def hasQuestionMark (s : List Char) : Bool :=
  s.any fun c => c == Char.ofNat 0x3F

/-- The RewriteCond of src/.htaccess.txt line 4: %\x7bHTTPS\x7d off. -/
def rewriteCondHolds (r : Request) : Bool :=
  r.https == false

/-- The expanded substitution string of the RewriteRule in
src/.htaccess.txt line 5: https://%\x7bHTTP_HOST\x7d%\x7bREQUEST_URI\x7d. -/
def substitutionOf (r : Request) : List Char :=
  "https://".toList ++ r.host ++ r.path

/-- Apache mod_rewrite default query handling: when the substitution
string contains no question mark, the original query string is appended
to the redirect target unchanged. -/
def applyQueryPassthrough (loc qs : List Char) : List Char :=
  if hasQuestionMark loc then loc
  else if qs = [] then loc else loc ++ Char.ofNat 0x3F :: qs

/-- The rewrite rule set of src/.htaccess.txt lines 4-5: when the
transport is not encrypted, the pattern ^(.*)$ matches any path and the
request is answered with an external redirect (flag R=301) to the
substitution target; otherwise the request passes through. -/
def htaccessHandle (r : Request) : HtResponse :=
  if rewriteCondHolds r then
    HtResponse.redirect 301 (applyQueryPassthrough (substitutionOf r) r.queryStr)
  else
    HtResponse.passThrough

/-- The redirect target described by the spec: same host and path under
https, with the full original query string preserved. -/
def specRedirectTarget (r : Request) : List Char :=
  "https://".toList ++ r.host ++ r.path ++
    (if r.queryStr = [] then [] else Char.ofNat 0x3F :: r.queryStr)

/-- A catalog record as the filter callback actually sees it: each field
is either a usable string (`some`) or absent / not a string (`none`), a
value on which the JavaScript .toLowerCase() call throws a TypeError. -/
structure ItemV where
  title : Option (List Char)
  description : Option (List Char)
deriving DecidableEq

/-- Modelled TypeError message for a .toLowerCase() call on an absent
field. -/
def typeErrMsg : List Char :=
  "TypeError: cannot read toLowerCase of undefined".toList

/-- Is the computation a success? -/
def isOkE {ε α : Type} : Except ε α → Bool
  | Except.ok _ => true
  | Except.error _ => false

/-- The filter callback of src/js/app.js lines 26-29 on a record with
possibly-absent fields: the title is read and lowercased
unconditionally; the description is read only when the lowered title
does not contain the lowered query (the disjunction short-circuits);
reading an absent field throws. -/
def matchItemV (query : List Char) (it : ItemV) : Except (List Char) Bool :=
  match it.title with
  | none => Except.error typeErrMsg
  | some t =>
    if includesList (lowerStr query) (lowerStr t) then Except.ok true
    else
      match it.description with
      | none => Except.error typeErrMsg
      | some d => Except.ok (includesList (lowerStr query) (lowerStr d))

/-- Array.prototype.filter on records with possibly-absent fields: the
callback runs on each element in order, and the first throw aborts the
whole filter. -/
def filterItemsV (query : List Char) : List ItemV → Except (List Char) (List ItemV)
  | [] => Except.ok []
  | it :: rest =>
    match matchItemV query it with
    | Except.error e => Except.error e
    | Except.ok b =>
      match filterItemsV query rest with
      | Except.error e => Except.error e
      | Except.ok r => Except.ok (if b then it :: r else r)

/-- The filteredResults computed property over records with
possibly-absent fields. -/
def filteredResultsV (data : List ItemV) (query : List Char) :
    Except (List Char) (List ItemV) :=
  if trimList query = [] then Except.ok [] else filterItemsV query data

end WeldingEngineer

namespace WeldingEngineer

/-- C2: for every catalog and every query whose trimmed form is empty,
`filteredResults` returns the empty sequence, regardless of the catalog's
contents. -/
theorem c2_empty_trimmed_query_yields_empty
    (data : List PageEntry) (query : List Char)
    (h : trimList query = []) :
    filteredResults data query = [] := by
  simp [filteredResults, h]

/-- Witness for C2 at the catalog `[⟨"arc", "flux"⟩]` and the
whitespace-only query `" "`. -/
theorem c2_empty_trimmed_query_yields_empty_witness :
    filteredResults [⟨"arc".toList, "flux".toList⟩] " ".toList = [] :=
  c2_empty_trimmed_query_yields_empty _ _ (by decide)

/-- C1 counterexample: the query `" "` (one space) is non-empty, and the
entry `⟨" a", ""⟩` has a title containing `" "` case-insensitively, yet
`filteredResults` returns the empty list because the trimmed query is
empty.  So the claim as stated over all non-empty queries is false. -/
theorem c1_counterexample :
    " ".toList ≠ ([] : List Char) ∧
    matchItem " ".toList ⟨" a".toList, "".toList⟩ = true ∧
    filteredResults [⟨" a".toList, "".toList⟩] " ".toList = [] :=
  ⟨by decide, by decide, by decide⟩

/-- C1 (amended): for every catalog and every query whose TRIMMED form is
non-empty, `filteredResults` returns exactly the elements whose title or
description contains the query case-insensitively — every returned element
satisfies the predicate, every catalog element satisfying the predicate is
returned — and the result is a sublist of the catalog, so the original
insertion order is preserved. -/
theorem c1_filter_exact
    (data : List PageEntry) (query : List Char)
    (h : trimList query ≠ []) :
    (∀ item ∈ filteredResults data query, matchItem query item = true) ∧
    (∀ item ∈ data,
      matchItem query item = true → item ∈ filteredResults data query) ∧
    List.Sublist (filteredResults data query) data := by
  unfold filteredResults
  rw [if_neg h]
  refine ⟨fun item hm => (List.mem_filter.mp hm).2,
          fun item hm hp => List.mem_filter.mpr ⟨hm, hp⟩,
          List.filter_sublist data⟩

/-- Witness for C1 (amended) at the catalog
`[⟨"Arc Welding", "rods"⟩]` and the query `"arc"`. -/
theorem c1_filter_exact_witness :
    (∀ item ∈ filteredResults [⟨"Arc Welding".toList, "rods".toList⟩]
        "arc".toList, matchItem "arc".toList item = true) ∧
    (∀ item ∈ [(⟨"Arc Welding".toList, "rods".toList⟩ : PageEntry)],
      matchItem "arc".toList item = true →
        item ∈ filteredResults [⟨"Arc Welding".toList, "rods".toList⟩]
          "arc".toList) ∧
    List.Sublist
      (filteredResults [⟨"Arc Welding".toList, "rods".toList⟩] "arc".toList)
      [⟨"Arc Welding".toList, "rods".toList⟩] :=
  c1_filter_exact _ _ (by decide)

/-- C3: the filter operation is idempotent: filtering the already-filtered
result by the same query returns the same sequence. -/
theorem c3_filter_idempotent
    (data : List PageEntry) (query : List Char) :
    filteredResults (filteredResults data query) query
      = filteredResults data query := by
  unfold filteredResults
  by_cases h : trimList query = []
  · simp [h]
  · simp only [if_neg h]
    rw [List.filter_filter]
    exact List.filter_congr fun a _ => by cases matchItem query a <;> simp

/-- C10: trimming decides only the empty-query case.  For every query with
non-empty trimmed form the matching predicate uses the ORIGINAL untrimmed
query; concretely, the query `" arc"` (leading space) matches nothing in a
catalog whose only title is `"arc"`, while its trimmed form `"arc"` would
match that entry. -/
theorem c10_matching_uses_untrimmed_query :
    (∀ (data : List PageEntry) (query : List Char), trimList query ≠ [] →
      filteredResults data query = data.filter (matchItem query)) ∧
    filteredResults [⟨"arc".toList, "".toList⟩] " arc".toList = [] ∧
    filteredResults [⟨"arc".toList, "".toList⟩] (trimList " arc".toList)
      = [⟨"arc".toList, "".toList⟩] := by
  refine ⟨fun data query h => ?_, by decide, by decide⟩
  unfold filteredResults
  rw [if_neg h]

/-- Witness for C10 at the catalog `[⟨"arc", ""⟩]` and the untrimmed
query `" arc"`. -/
theorem c10_matching_uses_untrimmed_query_witness :
    filteredResults [⟨"arc".toList, "".toList⟩] " arc".toList
      = List.filter (matchItem " arc".toList)
          [⟨"arc".toList, "".toList⟩] :=
  c10_matching_uses_untrimmed_query.1 _ _ (by decide)

lemma filteredResults_nil (query : List Char) :
    filteredResults [] query = [] := by
  unfold filteredResults
  split <;> simp

/-- C4: a non-success response leaves the widget unchanged (the catalog
is not populated; from the initial state it remains empty), produces
exactly one diagnostic log entry whose message carries the response's
status description, and shows no user-facing alert; a JSON parse failure
of the body is handled identically (widget unchanged, one log entry, no
alert). -/
theorem c4_load_failure_logged_catalog_empty :
    (∀ (w : Widget) (r : Response), r.ok = false →
      (created w r).1 = w ∧
      (created w r).2
        = [UiEvent.logged (loadErrPre ++ notOkMsg ++ r.statusText)] ∧
      alertsOf (created w r).2 = []) ∧
    (∀ (w : Widget) (r : Response) (e : List Char),
      r.ok = true → r.body = Except.error e →
      (created w r).1 = w ∧
      logsOf (created w r).2 = [loadErrPre ++ e] ∧
      alertsOf (created w r).2 = []) ∧
    (∀ (r : Response), r.ok = false →
      ((created initWidget r).1).data = []) := by
  refine ⟨fun w r h => ?_, fun w r e hok hb => ?_, fun r h => ?_⟩
  · simp [created, h, alertsOf]
  · simp [created, hok, hb, alertsOf, logsOf]
  · simp [created, h, initWidget]

/-- Witness for C4 at the initial widget and a 404-style response. -/
theorem c4_load_failure_logged_catalog_empty_witness :
    (created initWidget ⟨false, "Not Found".toList, Except.ok []⟩).1
      = initWidget ∧
    (created initWidget ⟨false, "Not Found".toList, Except.ok []⟩).2
      = [UiEvent.logged (loadErrPre ++ notOkMsg ++ "Not Found".toList)] ∧
    alertsOf (created initWidget
        ⟨false, "Not Found".toList, Except.ok []⟩).2 = [] :=
  c4_load_failure_logged_catalog_empty.1 initWidget
    ⟨false, "Not Found".toList, Except.ok []⟩ rfl

/-- C5: a clipboard write that resolves produces exactly one success
notification and zero diagnostic log entries; a clipboard write that
rejects produces exactly one manual-copy notification and exactly one
diagnostic log entry. -/
theorem c5_clipboard_notifications :
    (alertsOf (copyClickTrace ClipOutcome.resolved) = [successMsg] ∧
     logsOf (copyClickTrace ClipOutcome.resolved) = []) ∧
    (∀ e, alertsOf (copyClickTrace (ClipOutcome.rejected e)) = [manualMsg] ∧
      logsOf (copyClickTrace (ClipOutcome.rejected e)) = [copyErrPre ++ e]) := by
  refine ⟨⟨?_, ?_⟩, fun e => ⟨?_, ?_⟩⟩ <;>
    simp [copyClickTrace, alertsOf, logsOf]

/-- C6: while the catalog is still loading (the initial state) or after
a failed load (non-ok response or parse failure), the filter computes
against an empty catalog and yields empty results for every query. -/
theorem c6_loading_or_failed_filters_empty :
    (∀ query, filteredResults initWidget.data query = []) ∧
    (∀ (r : Response) (query : List Char),
      r.ok = false ∨ (∃ e, r.body = Except.error e) →
      filteredResults ((created initWidget r).1).data query = []) := by
  refine ⟨fun query => filteredResults_nil query, fun r query h => ?_⟩
  rcases h with h | ⟨e, he⟩
  · rw [show (created initWidget r).1 = initWidget from by simp [created, h]]
    exact filteredResults_nil query
  · by_cases hok : r.ok = false
    · rw [show (created initWidget r).1 = initWidget from by
        simp [created, hok]]
      exact filteredResults_nil query
    · rw [show (created initWidget r).1 = initWidget from by
        simp [created, hok, he]]
      exact filteredResults_nil query

/-- Witness for C6 at a failed response and the query "arc". -/
theorem c6_loading_or_failed_filters_empty_witness :
    filteredResults
      ((created initWidget ⟨false, "Gone".toList, Except.ok []⟩).1).data
      "arc".toList = [] :=
  c6_loading_or_failed_filters_empty.2
    ⟨false, "Gone".toList, Except.ok []⟩ "arc".toList (Or.inl rfl)

/-- C7: every request over an unencrypted transport is answered with a
permanent redirect (status 301) to the same host and path under https
with the original query string preserved.  The hypotheses say the host
and the path contain no literal question mark, as holds for a well-formed
Host header and for an Apache REQUEST_URI, which excludes the query
string. -/
theorem c7_https_redirect
    (r : Request) (hhttps : r.https = false)
    (hhost : hasQuestionMark r.host = false)
    (hpath : hasQuestionMark r.path = false) :
    htaccessHandle r = HtResponse.redirect 301 (specRedirectTarget r) := by
  have hsub : hasQuestionMark (substitutionOf r) = false := by
    simp only [hasQuestionMark, substitutionOf, List.any_append,
      Bool.or_eq_false_iff]
    refine ⟨⟨by decide, ?_⟩, ?_⟩
    · simpa [hasQuestionMark] using hhost
    · simpa [hasQuestionMark] using hpath
  unfold htaccessHandle
  rw [if_pos (by simp [rewriteCondHolds, hhttps])]
  unfold applyQueryPassthrough specRedirectTarget
  rw [hsub]
  simp only [Bool.false_eq_true, if_false]
  unfold substitutionOf
  split <;> simp

/-- Witness for C7 at a concrete unencrypted request with a query
string. -/
theorem c7_https_redirect_witness :
    htaccessHandle
        ⟨false, "example.org".toList, "/a/b".toList, "x=1".toList⟩
      = HtResponse.redirect 301
          (specRedirectTarget
            ⟨false, "example.org".toList, "/a/b".toList, "x=1".toList⟩) :=
  c7_https_redirect _ rfl (by decide) (by decide)

/-- C8: in the copy-button trace, every user notification occurs at a
position strictly after a position where the clipboard write settled:
the notification never precedes the resolution or rejection. -/
theorem c8_notification_after_settle
    (res : ClipOutcome) (i : Nat) (m : List Char)
    (h : (copyClickTrace res)[i]? = some (UiEvent.alertShown m)) :
    ∃ j, j < i ∧
      ∃ b, (copyClickTrace res)[j]? = some (UiEvent.clipSettled b) := by
  cases res with
  | resolved =>
    match i with
    | 0 => simp [copyClickTrace] at h
    | 1 => exact ⟨0, by omega, true, rfl⟩
    | n + 2 => simp [copyClickTrace] at h
  | rejected e =>
    match i with
    | 0 => simp [copyClickTrace] at h
    | 1 => simp [copyClickTrace] at h
    | 2 => exact ⟨0, by omega, false, rfl⟩
    | n + 3 => simp [copyClickTrace] at h

/-- Witness for C8 at the resolved outcome, where the success alert sits
at position 1 and the settlement at position 0. -/
theorem c8_notification_after_settle_witness :
    ∃ j, j < 1 ∧
      ∃ b, (copyClickTrace ClipOutcome.resolved)[j]?
        = some (UiEvent.clipSettled b) :=
  c8_notification_after_settle ClipOutcome.resolved 1 successMsg rfl

lemma matchItemV_isOk (query : List Char) (it : ItemV)
    (ht : it.title.isSome) (hd : it.description.isSome) :
    isOkE (matchItemV query it) = true := by
  obtain ⟨t, ht⟩ := Option.isSome_iff_exists.mp ht
  obtain ⟨d, hd⟩ := Option.isSome_iff_exists.mp hd
  simp only [matchItemV, ht, hd]
  split <;> rfl

lemma filterItemsV_isOk (query : List Char) (data : List ItemV)
    (h : ∀ it ∈ data, isOkE (matchItemV query it) = true) :
    isOkE (filterItemsV query data) = true := by
  induction data with
  | nil => rfl
  | cons it rest ih =>
    have h1 := h it (List.mem_cons_self it rest)
    have h2 := ih fun x hx => h x (List.mem_cons_of_mem _ hx)
    unfold filterItemsV
    cases hm : matchItemV query it with
    | error e => rw [hm] at h1; exact absurd h1 (by simp [isOkE])
    | ok b =>
      cases hr : filterItemsV query rest with
      | error e => rw [hr] at h2; exact absurd h2 (by simp [isOkE])
      | ok res => rfl

lemma filterItemsV_error (query : List Char) (data : List ItemV)
    (h : ∃ it ∈ data, isOkE (matchItemV query it) = false) :
    isOkE (filterItemsV query data) = false := by
  induction data with
  | nil => simp at h
  | cons it rest ih =>
    obtain ⟨x, hx, hbad⟩ := h
    unfold filterItemsV
    rcases List.mem_cons.mp hx with rfl | hx
    · cases hm : matchItemV query x with
      | error e => rfl
      | ok b => rw [hm] at hbad; exact absurd hbad (by simp [isOkE])
    · cases hm : matchItemV query it with
      | error e => rfl
      | ok b =>
        have hres := ih ⟨x, hx, hbad⟩
        cases hr : filterItemsV query rest with
        | error e => rfl
        | ok res => rw [hr] at hres; exact absurd hres (by simp [isOkE])

/-- C9 counterexample: the catalog contains an entry whose description
is absent, and the query "arc" has a non-empty trimmed form, yet the
filter returns a result instead of throwing: the title matches, so the
disjunction short-circuits before the description is read.  The claim
that any absent title-or-description field makes the filter throw is
therefore false. -/
theorem c9_counterexample :
    trimList "arc".toList ≠ [] ∧
    filteredResultsV [⟨some ("arc".toList), none⟩] "arc".toList
      = Except.ok [⟨some ("arc".toList), none⟩] :=
  ⟨by decide, rfl⟩

/-- C9 (amended): on a catalog whose entries all have string-valued
title and description the filter never errors; with a non-empty trimmed
query the filter errors as soon as some entry's callback errors; the
callback errors on every entry with an absent title (the title is read
unconditionally), and on an entry with an absent description exactly
when its title does not contain the query (the description is read only
then). -/
theorem c9_filter_partiality :
    (∀ (data : List ItemV) (query : List Char),
      (∀ it ∈ data, it.title.isSome ∧ it.description.isSome) →
      isOkE (filteredResultsV data query) = true) ∧
    (∀ (data : List ItemV) (query : List Char),
      trimList query ≠ [] →
      (∃ it ∈ data, isOkE (matchItemV query it) = false) →
      isOkE (filteredResultsV data query) = false) ∧
    (∀ (query : List Char) (it : ItemV), it.title = none →
      isOkE (matchItemV query it) = false) ∧
    (∀ (query t : List Char),
      includesList (lowerStr query) (lowerStr t) = false →
      isOkE (matchItemV query ⟨some t, none⟩) = false) := by
  refine ⟨fun data query h => ?_, fun data query hq hbad => ?_,
    fun query it ht => ?_, fun query t hnm => ?_⟩
  · unfold filteredResultsV
    split
    · rfl
    · exact filterItemsV_isOk query data fun it hit =>
        matchItemV_isOk query it (h it hit).1 (h it hit).2
  · unfold filteredResultsV
    rw [if_neg hq]
    exact filterItemsV_error query data hbad
  · simp only [matchItemV, ht]
    rfl
  · simp [matchItemV, hnm, isOkE]

/-- Witness for C9 (amended): a catalog with one absent-title entry makes
the filter error on the query "arc". -/
theorem c9_filter_partiality_witness :
    isOkE (filteredResultsV [⟨none, some ("flux".toList)⟩] "arc".toList)
      = false :=
  c9_filter_partiality.2.1 [⟨none, some ("flux".toList)⟩] "arc".toList
    (by decide)
    ⟨⟨none, some ("flux".toList)⟩, List.mem_singleton.mpr rfl, by decide⟩

end WeldingEngineer
